import Mathlib

/-!
Verification of the efts-io conventions/accessor library against its sources.

The development shallowly embeds the data model and the operations of the
package `efts_io` (files `conventions.py`, `_internals.py`, `variables.py`,
`wrapper.py`; the dimension reducer and the splicer are embedded from the R
source kept verbatim in `_internals.py`).  Machine-level concerns (netCDF
encoding, xarray internals) are out of scope; datasets are modelled by the
name/size/attribute structure the code actually inspects.
-/

/-! ## Convention registry (`conventions.py`) -/

def TIME_DIMNAME : String := "time"

def STATION_DIMNAME : String := "station"

def ENS_MEMBER_DIMNAME : String := "ens_member"

def LEAD_TIME_DIMNAME : String := "lead_time"

def STR_LEN_DIMNAME : String := "strLen"

def STATION_ID_VARNAME : String := "station_id"

def STATION_NAME_VARNAME : String := "station_name"

def LAT_VARNAME : String := "lat"

def LON_VARNAME : String := "lon"

def AREA_VARNAME : String := "area"

def STF_2_0_URL : String :=
  "https://github.com/csiro-hydroinformatics/efts/blob/d7d43a995fb5e459bcb894e09b7bb89de03e285c/docs/netcdf_for_water_forecasting.md"

def conventional_varnames : List String :=
  [STATION_DIMNAME, LEAD_TIME_DIMNAME, TIME_DIMNAME, ENS_MEMBER_DIMNAME,
   STR_LEN_DIMNAME, STATION_ID_VARNAME, STATION_NAME_VARNAME, LAT_VARNAME,
   LON_VARNAME, "x", "y", AREA_VARNAME, "elevation"]

def mandatory_global_attributes : List String :=
  ["title", "institution", "source", "catchment", "STF_convention_version",
   "STF_nc_spec", "comment", "history"]

def mandatory_netcdf_dimensions : List String :=
  [TIME_DIMNAME, STATION_DIMNAME, LEAD_TIME_DIMNAME, STR_LEN_DIMNAME, ENS_MEMBER_DIMNAME]

def mandatory_xarray_dimensions : List String :=
  [TIME_DIMNAME, STATION_DIMNAME, LEAD_TIME_DIMNAME, ENS_MEMBER_DIMNAME]

def mandatory_varnames : List String :=
  [TIME_DIMNAME, STATION_DIMNAME, LEAD_TIME_DIMNAME, STATION_ID_VARNAME,
   STATION_NAME_VARNAME, ENS_MEMBER_DIMNAME, LAT_VARNAME, LON_VARNAME]

def get_default_dim_order : List String :=
  [LEAD_TIME_DIMNAME, STATION_DIMNAME, ENS_MEMBER_DIMNAME, TIME_DIMNAME]

/-! ## Dataset handle model

An `xr.Dataset` as seen by this library: dimension names with their sizes,
the keys of the global attribute dictionary, the variable names, the values
of the (string-valued) dimension variables, and the values of the time axis.
-/

structure XrDataset where
  dims : List (String × Nat)
  attr_keys : List String
  variable_names : List String
  var_values : List (String × List String)
  time_values : List Int
deriving Repr, DecidableEq

/-- Embeds `conventions._has_all_members`: Python set semantics,
`set(tested).intersection(r) == r`. -/
def _has_all_members (tested reference : List String) : Bool :=
  decide (tested.toFinset ∩ reference.toFinset = reference.toFinset)

/-- Embeds `conventions._has_required_dimensions` (xarray branch):
`set(d.dims.keys()) == set(mandatory_dimensions)`. -/
def _has_required_dimensions (d : XrDataset) (mandatory_dimensions : List String) : Bool :=
  decide ((d.dims.map Prod.fst).toFinset = mandatory_dimensions.toFinset)

def has_required_stf2_dimensions (d : XrDataset) : Bool :=
  _has_required_dimensions d mandatory_netcdf_dimensions

def has_required_xarray_dimensions (d : XrDataset) : Bool :=
  _has_required_dimensions d mandatory_xarray_dimensions

def has_required_global_attributes (d : XrDataset) : Bool :=
  _has_all_members d.attr_keys mandatory_global_attributes

def has_required_variables (d : XrDataset) : Bool :=
  _has_all_members d.variable_names mandatory_varnames

/-! ## Dimension splicer (`_internals.py`, R source `splice_named_var`) -/

/-- Errors signalled by the embedded R functions of `_internals.py`. -/
inductive RErr where
  /-- an R `stopifnot(cond)` failure, tagged with the condition text -/
  | stopifnotFailed (cond : String)
  /-- `stop("Invalid dimensions for a data variable: ...")`, carrying the
  requested dimension names that the message is assembled from -/
  | invalidDims (ncdims : List String)
  /-- `stop('the input array must have a valid dim_names attribute')` or the
  length-mismatch stop in `reduce_dimensions` -/
  | dimNamesMismatch
  /-- `stop('Dimension names to slice but not found in array dim names: ...')` -/
  | namesNotFound (diffdim : List String)
  /-- `stop('Cannot drop non-degenerate when subsetting')` -/
  | dropNonDegenerate
  /-- failures of the validating `dim_names` setter -/
  | dimNamesSetterFailed
deriving Repr, DecidableEq

/-- The message R builds for the invalid-dimensions stop:
`paste0("Invalid dimensions for a data variable: ", paste(ncdims, collapse = ","))`. -/
def invalidDimsMessage (ncdims : List String) : String :=
  "Invalid dimensions for a data variable: " ++ String.intercalate "," ncdims

/-- Embeds `splice_named_var(d, ncdims)` from the R source in `_internals.py`
(lines 53-70): name the length-4 vector with the default dimension order,
then (when `ncdims` is non-empty) select by name in the requested order. -/
def splice_named_var (d : List Int) (ncdims : List String) : Except RErr (List (String × Int)) :=
  if d.length ≠ 4 then .error (.stopifnotFailed "length(d) == 4")
  else
    let named := get_default_dim_order.zip d
    if ncdims.length > 0 then
      if ¬ ncdims.all (fun nm => decide (nm ∈ get_default_dim_order)) then
        .error (.invalidDims ncdims)
      else
        .ok (ncdims.map (fun nm => (nm, ((named.lookup nm).getD 0))))
    else .ok named

/-! ## Variable-definition builder and dispatch (`variables.py`) -/

/-- Python exceptions raised by the embedded functions. -/
inductive PyErr where
  | typeError (msg : String)
  | valueError (msg : String)
  | keyError (key : String)
  | fileExistsError (msg : String)
  | exception (msg : String)
deriving Repr, DecidableEq

/-- Python values occurring in the message-building expression of
`create_efts_variables` (a string literal and `len(unknown_dims)`). -/
inductive PyVal where
  | str (s : String)
  | int (n : Nat)
deriving Repr, DecidableEq

/-- Python `+` on those values: `str + str` concatenates, `str + int` raises
`TypeError: can only concatenate str (not "int") to str`. -/
def pyAdd : PyVal → PyVal → Except PyErr PyVal
  | .str a, .str b => .ok (.str (a ++ b))
  | .str _, .int _ => .error (.typeError "can only concatenate str (not \"int\") to str")
  | .int _, .str _ => .error (.typeError "unsupported operand type(s) for +: \x27int\x27 and \x27str\x27")
  | .int a, .int b => .ok (.int (a + b))

/-- A variable-definition record as produced by `create_variable_definition`. -/
structure VarDef where
  name : String
  longname : String
  units : String
  dim_type : String
  missval : Int
  precision : String
deriving Repr, DecidableEq

/-- An optional-variable definition row
(cf. `default_optional_variable_definitions_v2_0`); `missval = none` stands
for `np.nan`. -/
structure OptVarDef where
  name : String
  longname : String
  standard_name : String
  units : String
  missval : Option Int
  precision : String
deriving Repr, DecidableEq

/-- Embeds `default_optional_variable_definitions_v2_0` from `variables.py`. -/
def default_optional_variable_definitions_v2_0 : List OptVarDef :=
  [{ name := "x", longname := "easting from the GDA94 datum in MGA Zone 55",
     standard_name := "northing_GDA94_zone55", units := "", missval := none,
     precision := "float" },
   { name := "y", longname := "northing from the GDA94 datum in MGA Zone 55",
     standard_name := "easting_GDA94_zone55", units := "", missval := none,
     precision := "float" },
   { name := "area", longname := "catchment area", standard_name := "area",
     units := "km^2", missval := some (-9999), precision := "float" },
   { name := "elevation", longname := "station elevation above sea level",
     standard_name := "elevation", units := "m", missval := some (-9999),
     precision := "float" }]

/-- A netCDF dimension as passed around by `variables.py`: the tuple
`(name, values, attrs)`, of which the code uses `d[0]` and `len(d[1])`. -/
structure EftsDim where
  name : String
  values : List Int
deriving Repr, DecidableEq

/-- The allocated, metadata-tagged array for one variable (`xr.Variable`):
axis names, shape, and the attributes attached by `create_data_variable`. -/
structure XrVariable where
  dims : List String
  shape : List Nat
  longname : String
  units : String
  missval : Option Int
  precision : String
deriving Repr, DecidableEq

/-- Embeds `create_data_variable(data_var_def, dimensions)` from
`_internals.py`: the variable's axis names are the dimension names in the
given order and its backing array has the dimensions' sizes. -/
def create_data_variable (a : VarDef) (dimensions : List EftsDim) : XrVariable :=
  { dims := dimensions.map EftsDim.name,
    shape := dimensions.map (fun d => d.values.length),
    longname := a.longname, units := a.units, missval := some a.missval,
    precision := a.precision }

/-- The five dimensions produced for a new file. -/
structure EftsDims where
  time_dim : EftsDim
  lead_time_dim : EftsDim
  station_dim : EftsDim
  str_dim : EftsDim
  ensemble_dim : EftsDim
deriving Repr, DecidableEq

/-- Modelled from the spec: `_create_nc_dims` (module `efts_io.dimensions`,
absent from the available sources; only its caller `create_efts_variables`
is present) builds the five canonical dimensions `time`, `lead_time`,
`station`, `strLen` and `ens_member` with the supplied sizes; the string
dimension length is not observable through the claims and is modelled as 30. -/
def _create_nc_dims (time_values : List Int) (num_stations lead_length ensemble_length : Nat) :
    EftsDims :=
  { time_dim := { name := TIME_DIMNAME, values := time_values },
    lead_time_dim := { name := LEAD_TIME_DIMNAME,
                       values := (List.range lead_length).map Int.ofNat },
    station_dim := { name := STATION_DIMNAME,
                     values := (List.range num_stations).map Int.ofNat },
    str_dim := { name := STR_LEN_DIMNAME, values := (List.range 30).map Int.ofNat },
    ensemble_dim := { name := ENS_MEMBER_DIMNAME,
                      values := (List.range ensemble_length).map Int.ofNat } }

/-- Embeds `create_mandatory_vardefs`: the six fixed-template metadata
variables (station id, station name, ensemble id, lead time, latitude,
longitude) with the axes the source attaches to each. -/
def create_mandatory_vardefs (station_dim str_dim ensemble_dim lead_time_dim : EftsDim)
    (lead_time_tstep : String) : List (String × XrVariable) :=
  [("station_ids_var",
    { dims := [STATION_DIMNAME], shape := [station_dim.values.length],
      longname := "station or node identification code", units := "",
      missval := none, precision := "integer" }),
   ("station_names_var",
    { dims := [str_dim.name, STATION_DIMNAME],
      shape := [str_dim.values.length, station_dim.values.length],
      longname := "station or node name", units := "", missval := none,
      precision := "char" }),
   ("ensemble_var",
    { dims := [ENS_MEMBER_DIMNAME], shape := [ensemble_dim.values.length],
      longname := "ensemble member id", units := "", missval := none,
      precision := "integer" }),
   ("lead_time_var",
    { dims := [LEAD_TIME_DIMNAME], shape := [lead_time_dim.values.length],
      longname := "forecast lead time", units := lead_time_tstep ++ " since time",
      missval := none, precision := "integer" }),
   ("latitude_var",
    { dims := [STATION_DIMNAME], shape := [station_dim.values.length],
      longname := "latitude", units := "degrees north", missval := some (-9999),
      precision := "float" }),
   ("longitude_var",
    { dims := [STATION_DIMNAME], shape := [station_dim.values.length],
      longname := "longitude", units := "degrees east", missval := some (-9999),
      precision := "float" })]

/-- The `dim_type == "4"` partition of `create_efts_variables`
(`ens_fcast_data_var_def`). -/
def dim4_records (data_var_def : List VarDef) : List VarDef :=
  data_var_def.filter (fun x => x.dim_type == "4")

/-- The `dim_type == "3"` partition (`ens_data_var_def`). -/
def dim3_records (data_var_def : List VarDef) : List VarDef :=
  data_var_def.filter (fun x => x.dim_type == "3")

/-- The `dim_type == "2"` partition (`point_data_var_def`). -/
def dim2_records (data_var_def : List VarDef) : List VarDef :=
  data_var_def.filter (fun x => x.dim_type == "2")

/-- The result of `create_efts_variables`: the `"metadatavars"` entry (which
the source can leave as Python `None`, hence an `Option`) and the
`"datavars"` mapping from variable name to allocated array. -/
structure EftsVariables where
  metadatavars : Option (List (String × XrVariable))
  datavars : List (String × XrVariable)
deriving Repr, DecidableEq

/-- Embeds `create_efts_variables` from `variables.py`.  Notable source
behaviours kept by the embedding: the statement
`variables_metadata = variables_metadata.update(optional_var_ncdefs)` binds
the return value of `dict.update`, which is `None`, so supplying optional
variables replaces the metadata mapping by `None`; and the error branch for
invalid dimensionality codes evaluates
`"Invalid dimension specifications for " + len(unknown_dims) + " variables..."`,
a `str + int` expression. -/
def create_efts_variables (data_var_def : List VarDef) (time_values : List Int)
    (num_stations lead_length ensemble_length : Nat)
    (optional_vars : Option (List OptVarDef)) (lead_time_tstep : String) :
    Except PyErr EftsVariables :=
  let efts_dims := _create_nc_dims time_values num_stations lead_length ensemble_length
  let time_dim := efts_dims.time_dim
  let lead_time_dim := efts_dims.lead_time_dim
  let station_dim := efts_dims.station_dim
  let str_dim := efts_dims.str_dim
  let ensemble_dim := efts_dims.ensemble_dim
  let mandatory_var_ncdefs :=
    create_mandatory_vardefs station_dim str_dim ensemble_dim lead_time_dim lead_time_tstep
  let variables_metadata : Option (List (String × XrVariable)) :=
    match optional_vars with
    | none => some mandatory_var_ncdefs
    | some _ => none
  let unknown_dims := data_var_def.filter (fun x => decide (x.dim_type ∉ ["2", "3", "4"]))
  if unknown_dims.length > 0 then
    match pyAdd (.str "Invalid dimension specifications for ") (.int unknown_dims.length) with
    | .error e => .error e
    | .ok v =>
      match pyAdd v (.str " variables. Only supported are characters 2, 3, 4") with
      | .error e => .error e
      | .ok (.str msg) => .error (.valueError msg)
      | .ok (.int _) => .error (.valueError "")
  else
    let data_variables :=
      (dim4_records data_var_def).map (fun x =>
        (x.name, create_data_variable x [lead_time_dim, station_dim, ensemble_dim, time_dim]))
      ++ (dim3_records data_var_def).map (fun x =>
        (x.name, create_data_variable x [station_dim, ensemble_dim, time_dim]))
      ++ (dim2_records data_var_def).map (fun x =>
        (x.name, create_data_variable x [station_dim, time_dim]))
    .ok { metadatavars := variables_metadata, datavars := data_variables }


/-- The `"datavars"` value computed by `create_efts_variables` when every
dimensionality code is valid (named here so the dispatch theorem can talk
about it; `create_efts_variables_eq_ok` proves it is the computed value). -/
def efts_datavars_value (data_var_def : List VarDef) (tv : List Int) (ns ll el : Nat) :
    List (String × XrVariable) :=
  (dim4_records data_var_def).map (fun x => (x.name, create_data_variable x
    [(_create_nc_dims tv ns ll el).lead_time_dim, (_create_nc_dims tv ns ll el).station_dim,
     (_create_nc_dims tv ns ll el).ensemble_dim, (_create_nc_dims tv ns ll el).time_dim]))
  ++ (dim3_records data_var_def).map (fun x => (x.name, create_data_variable x
    [(_create_nc_dims tv ns ll el).station_dim, (_create_nc_dims tv ns ll el).ensemble_dim,
     (_create_nc_dims tv ns ll el).time_dim]))
  ++ (dim2_records data_var_def).map (fun x => (x.name, create_data_variable x
    [(_create_nc_dims tv ns ll el).station_dim, (_create_nc_dims tv ns ll el).time_dim]))

/-- The `"metadatavars"` value computed by `create_efts_variables`. -/
def efts_metadatavars_value (tv : List Int) (ns ll el : Nat)
    (ov : Option (List OptVarDef)) (tstep : String) : Option (List (String × XrVariable)) :=
  match ov with
  | none => some (create_mandatory_vardefs (_create_nc_dims tv ns ll el).station_dim
      (_create_nc_dims tv ns ll el).str_dim (_create_nc_dims tv ns ll el).ensemble_dim
      (_create_nc_dims tv ns ll el).lead_time_dim tstep)
  | some _ => none

/-! ## Dataset wrapper (`wrapper.py`) -/

/-- Embeds `_first_where(condition)`: the index of the first true entry of
the boolean vector, or `ValueError` when no element is true. -/
def _first_where (condition : List Bool) : Except PyErr Nat :=
  let x := (List.range condition.length).filter (fun i => condition.getD i false)
  match x with
  | [] => .error (.valueError "first_where: Invalid condition, no element is true")
  | i :: _ => .ok i

/-- Embeds `EftsDataSet.get_stations_varname`. -/
def get_stations_varname : String := STATION_ID_VARNAME

/-- Embeds `EftsDataSet._get_values`: only conventional variable names may be
retrieved; a missing variable raises `KeyError` (Python indexing). -/
def _get_values (ds : XrDataset) (variable_name : String) : Except PyErr (List String) :=
  if variable_name ∉ conventional_varnames then
    .error (.valueError (variable_name ++ " cannot be directly retrieved. Must be in "
      ++ String.intercalate ", " conventional_varnames))
  else
    match ds.var_values.lookup variable_name with
    | none => .error (.keyError variable_name)
    | some vs => .ok vs

/-- Embeds `EftsDataSet.index_for_identifier`: fetch the dimension variable's
values, reject a null identifier, then `_first_where(identifier == values)`. -/
def index_for_identifier (ds : XrDataset) (identifier : Option String)
    (dimension_id : Option String) : Except PyErr Nat :=
  match _get_values ds (dimension_id.getD get_stations_varname) with
  | .error e => .error e
  | .ok identValues =>
    match identifier with
    | none => .error (.exception "Identifier cannot be NA")
    | some idv => _first_where (identValues.map (fun s => idv == s))

/-- Embeds `EftsDataSet.index_for_time`: `_first_where(self.data.time == dateTime)`. -/
def index_for_time (ds : XrDataset) (dateTime : Int) : Except PyErr Nat :=
  _first_where (ds.time_values.map (fun v => v == dateTime))

/-- Embeds `EftsDataSet.get_station_count`: the body evaluates
`self.data.dims[STATION_DIMNAME]` (raising `KeyError` when the dimension is
absent) and then falls off the end of the function, returning `None`. -/
def get_station_count (ds : XrDataset) : Except PyErr (Option Int) :=
  match ds.dims.lookup STATION_DIMNAME with
  | none => .error (.keyError STATION_DIMNAME)
  | some _ => .ok none

/-- Embeds `stf2_mandatory_global_attributes` from `wrapper.py` (all-default
call, as used when `xr_efts` receives no attributes). -/
def stf2_mandatory_global_attributes : List (String × String) :=
  [("title", "not provided"), ("institution", "not provided"),
   ("catchment", "not provided"), ("source", "not provided"),
   ("comment", "not provided"), ("history", "not provided"),
   ("STF_convention_version", "2.0"), ("STF_nc_spec", STF_2_0_URL)]

/-- Embeds `xr_efts` from `wrapper.py`: builds the dataset with coordinates
`time`, `station` (sized by the identifiers), `ens_member`, `lead_time`
(defaulting to `[0]`), the `station_id` coordinate, and the station-indexed
data variables `station_name`, `lat`, `lon`, `area`; global attributes fall
back to the STF 2.0 defaults when none are given (Python `or` also replaces
an empty dictionary). -/
def xr_efts (issue_times : List Int) (station_ids : List String)
    (lead_times : Option (List Int)) (lead_time_tstep : String) (ensemble_size : Nat)
    (station_names : Option (List String)) (latitudes longitudes areas : Option (List Int))
    (nc_attributes : Option (List (String × String))) : XrDataset :=
  let lt := lead_times.getD [0]
  let attrs := match nc_attributes with
    | none => stf2_mandatory_global_attributes
    | some a => if a = [] then stf2_mandatory_global_attributes else a
  { dims := [(TIME_DIMNAME, issue_times.length), (STATION_DIMNAME, station_ids.length),
      (ENS_MEMBER_DIMNAME, ensemble_size), (LEAD_TIME_DIMNAME, lt.length)],
    attr_keys := attrs.map Prod.fst,
    variable_names := [TIME_DIMNAME, STATION_DIMNAME, ENS_MEMBER_DIMNAME, LEAD_TIME_DIMNAME,
      STATION_ID_VARNAME, STATION_NAME_VARNAME, LAT_VARNAME, LON_VARNAME, AREA_VARNAME],
    var_values := [(STATION_ID_VARNAME, station_ids),
      (STATION_NAME_VARNAME, station_names.getD station_ids)],
    time_values := issue_times }

/-- Embeds `create_efts` from `wrapper.py` over an explicit file-system state
(a path-to-contents map): the guards run in source order (missing station
ids, missing attributes, existing target file), and in this snapshot the
function never writes to the file system at all (it builds an in-memory
dataset), so the state is returned unchanged on every path. -/
def create_efts (fs : List (String × String)) (fname : String)
    (time_values : List Int) (data_var_definitions : List VarDef)
    (stations_ids : Option (List Int)) (nc_attributes : Option (List (String × String)))
    (optional_vars : Option (List OptVarDef)) (lead_length ensemble_length : Nat)
    (lead_time_tstep : String) :
    Except PyErr EftsVariables × List (String × String) :=
  match stations_ids with
  | none =>
    (.error (.valueError "You must provide station identifiers when creating a new EFTS netCDF data set"), fs)
  | some ids =>
    match nc_attributes with
    | none =>
      (.error (.valueError ("You must provide a suitable list for nc_attributes, including"
        ++ String.intercalate ", " mandatory_global_attributes)), fs)
    | some _ =>
      if (fs.lookup fname).isSome then
        (.error (.fileExistsError ("File already exists: " ++ fname)), fs)
      else
        match create_efts_variables data_var_definitions time_values ids.length
            lead_length ensemble_length optional_vars lead_time_tstep with
        | .error e => (.error e, fs)
        | .ok v => (.ok v, fs)

/-! ## Dimension reducer (`_internals.py`, R source `reduce_dimensions`)

R arrays are stored column-major; an array value is modelled as its flat
column-major data together with the `dim` and `dim_names` attributes.  With
this representation R's `drop` and `array(y, dims)` leave the data untouched
and only `aperm` permutes it.
-/

/-- A named array: flat column-major data with the `dim` attribute (shape)
and the `dim_names` attribute. -/
structure NamedArray (α : Type) where
  shape : List Nat
  dim_names : List String
  data : List α
deriving Repr, DecidableEq

/-- R `match(nm, l)` (first position of `nm` in `l`, zero-based here; only
used under a membership guard, so the not-found value is irrelevant). -/
def matchIndex {α : Type} [DecidableEq α] (nm : α) : List α → Nat
  | [] => 0
  | a :: rest => if a = nm then 0 else matchIndex nm rest + 1

/-- Column-major linearization of a multi-index against a shape. -/
def linearizeCM : List Nat → List Nat → Nat
  | s :: ss, j :: js => j + s * linearizeCM ss js
  | _, _ => 0

/-- Column-major delinearization of a flat offset against a shape. -/
def delinearizeCM : List Nat → Nat → List Nat
  | [], _ => []
  | s :: ss, l => (l % s) :: delinearizeCM ss (l / s)

/-- The inverse index map of `aperm`: position `m` of the source array reads
the permuted index at the position where `perm` mentions `m`. -/
def backPermute (perm : List Nat) (idx : List Nat) : List Nat :=
  (List.range perm.length).map (fun m => idx.getD (matchIndex m perm) 0)

/-- R `aperm(x, perm)` (zero-based `perm`): axis `k` of the result is axis
`perm[k]` of `x`, and entry `result[j]` is `x[i]` with `i[perm[k]] = j[k]`. -/
def aperm {α : Type} (x : NamedArray α) (perm : List Nat) (dflt : α) : NamedArray α :=
  let new_shape := perm.map (fun k => x.shape.getD k 0)
  { shape := new_shape,
    dim_names := perm.map (fun k => x.dim_names.getD k ""),
    data := (List.range new_shape.prod).map (fun l =>
      x.data.getD (linearizeCM x.shape (backPermute perm (delinearizeCM new_shape l))) dflt) }

/-- R `drop(y)`: delete the dimensions of size one (column-major data is
unchanged by this). -/
def drop_degenerate {α : Type} (x : NamedArray α) : NamedArray α :=
  { shape := x.shape.filter (fun s => decide (s ≠ 1)),
    dim_names := ((x.dim_names.zip x.shape).filter (fun p => decide (p.2 ≠ 1))).map Prod.fst,
    data := x.data }

/-- R `array(y, dims)`: re-dimension the flat data, recycling it to the new
total length (a no-op when the length already matches); `dimnames` are not
carried over. -/
def array_reshape {α : Type} (x : NamedArray α) (sizes : List Nat) (dflt : α) : NamedArray α :=
  { shape := sizes, dim_names := [],
    data := (List.range sizes.prod).map (fun l => x.data.getD (l % x.data.length) dflt) }

/-- R `dim_names(y) <- value` from `_internals.py` lines 77-87: the setter
validates that the names count matches the rank and that the names are
unique. -/
def set_dim_names {α : Type} (x : NamedArray α) (value : List String) :
    Except RErr (NamedArray α) :=
  if x.shape.length ≠ value.length then .error .dimNamesSetterFailed
  else if value.dedup.length ≠ x.shape.length then .error .dimNamesSetterFailed
  else .ok { x with dim_names := value }

/-- R `setdiff(a, b)`: the distinct elements of `a` not in `b`, in order. -/
def setdiffStr (a b : List String) : List String :=
  (a.filter (fun s => decide (s ∉ b))).dedup

/-- Embeds `reduce_dimensions(x, subset_dim_names)` from the R source in
`_internals.py` (lines 89-124): validate the `dim_names` attribute, default
the target to the non-degenerate axis names, reject unknown targets and
non-degenerate drops, permute the target axes to the front with `aperm`,
`drop` the degenerate axes, re-dimension to exactly the target sizes (this
re-materializes explicitly requested size-1 axes), and attach the target
names.  (`new_dim_sizes = reordered_dim_sizes[1:length(w)]` is R's prefix
take for a non-empty target list.) -/
def reduce_dimensions {α : Type} (x : NamedArray α) (subset : Option (List String))
    (dflt : α) : Except RErr (NamedArray α) :=
  let dimsize_input := x.shape
  let dn := x.dim_names
  if dn.length ≠ dimsize_input.length then .error .dimNamesMismatch
  else
    let subset_dim_names :=
      match subset with
      | none => ((dn.zip dimsize_input).filter (fun p => decide (1 < p.2))).map Prod.fst
      | some s => s
    let diffdim := setdiffStr subset_dim_names dn
    if diffdim ≠ [] then .error (.namesNotFound diffdim)
    else
      let dropped_dims := setdiffStr dn subset_dim_names
      if dropped_dims.any (fun nm => decide (1 < dimsize_input.getD (matchIndex nm dn) 0)) then
        .error .dropNonDegenerate
      else
        let w := subset_dim_names.map (fun nm => matchIndex nm dn)
        let other := dropped_dims.map (fun nm => matchIndex nm dn)
        let x_reordered := aperm x (w ++ other) dflt
        let reordered_dim_names := (w ++ other).map (fun k => dn.getD k "")
        let new_dim_sizes := x_reordered.shape.take w.length
        let new_dim_names := reordered_dim_names.take w.length
        let y := array_reshape (drop_degenerate x_reordered) new_dim_sizes dflt
        set_dim_names y new_dim_names

/-! ## Theorems -/

/-- Unfolding lemma for `create_efts_variables` on inputs with no invalid
dimensionality code. -/
theorem create_efts_variables_eq_ok (defs : List VarDef) (tv : List Int)
    (ns ll el : Nat) (ov : Option (List OptVarDef)) (tstep : String)
    (hemp : defs.filter (fun x => decide (x.dim_type ∉ ["2", "3", "4"])) = []) :
    create_efts_variables defs tv ns ll el ov tstep =
      .ok ⟨efts_metadatavars_value tv ns ll el ov tstep, efts_datavars_value defs tv ns ll el⟩ := by
  simp only [create_efts_variables, hemp]
  rfl

/-! ## Theorems: validation predicates (C6) -/

/-- C6: each validation predicate is a pure boolean function of the dataset
handle: `has_required_global_attributes` holds exactly when the attribute
keys are a superset of the eight mandatory global attributes,
`has_required_variables` exactly when the variable names are a superset of
the eight mandatory variable names, and the two dimension predicates hold
exactly when the dimension-name set equals the corresponding mandatory set. -/
theorem validation_predicates_spec (d : XrDataset) :
    (has_required_global_attributes d = true ↔
      mandatory_global_attributes.toFinset ⊆ d.attr_keys.toFinset)
    ∧ (has_required_variables d = true ↔
      mandatory_varnames.toFinset ⊆ d.variable_names.toFinset)
    ∧ (has_required_stf2_dimensions d = true ↔
      (d.dims.map Prod.fst).toFinset = mandatory_netcdf_dimensions.toFinset)
    ∧ (has_required_xarray_dimensions d = true ↔
      (d.dims.map Prod.fst).toFinset = mandatory_xarray_dimensions.toFinset)
    ∧ mandatory_global_attributes.length = 8
    ∧ mandatory_varnames.length = 8 := by
  refine ⟨?_, ?_, ?_, ?_, rfl, rfl⟩
  · unfold has_required_global_attributes _has_all_members
    rw [decide_eq_true_iff, Finset.inter_eq_right]
  · unfold has_required_variables _has_all_members
    rw [decide_eq_true_iff, Finset.inter_eq_right]
  · unfold has_required_stf2_dimensions _has_required_dimensions
    rw [decide_eq_true_iff]
  · unfold has_required_xarray_dimensions _has_required_dimensions
    rw [decide_eq_true_iff]

/-! ## Theorems: splicer (C5) -/

/-- C5: for a length-4 integer vector and a non-empty ordered subset of the
canonical dimension names, `splice_named_var` returns the named vector whose
names are the subset in the given order and whose values come from the
corresponding positions of the input; a vector of the wrong length fails the
`stopifnot`, and a request containing a name outside the canonical set fails
with the invalid-dimension stop whose message is assembled from the
requested names (hence names the offending entries). -/
theorem splice_named_var_spec (d : List Int) (ncdims : List String) :
    (d.length = 4 → ncdims ≠ [] → (∀ nm ∈ ncdims, nm ∈ get_default_dim_order) →
      splice_named_var d ncdims =
        .ok (ncdims.map (fun nm => (nm, ((get_default_dim_order.zip d).lookup nm).getD 0))))
    ∧ (d.length ≠ 4 →
      splice_named_var d ncdims = .error (.stopifnotFailed "length(d) == 4"))
    ∧ (d.length = 4 → ∀ nm ∈ ncdims, nm ∉ get_default_dim_order →
      splice_named_var d ncdims = .error (.invalidDims ncdims)) := by
  refine ⟨?_, ?_, ?_⟩
  · intro h4 hne hmem
    unfold splice_named_var
    rw [if_neg (by omega)]
    have hlen : ncdims.length > 0 := by
      cases ncdims with
      | nil => exact absurd rfl hne
      | cons a l => simp
    rw [if_pos hlen,
      if_neg (by simp only [not_not, List.all_eq_true, decide_eq_true_iff]; exact hmem)]
  · intro h4
    unfold splice_named_var
    rw [if_pos h4]
  · intro h4 nm hm hnot
    unfold splice_named_var
    rw [if_neg (by omega)]
    have hlen : ncdims.length > 0 := by
      cases ncdims with
      | nil => simp at hm
      | cons a l => simp
    rw [if_pos hlen, if_pos (by
      simp only [List.all_eq_true, decide_eq_true_iff]
      push_neg
      exact ⟨nm, hm, hnot⟩)]

/-- Witness for C5: a concrete length-4 vector spliced to `[station, time]`
retains the corresponding positions, in the requested order. -/
theorem splice_named_var_spec_witness :
    splice_named_var [10, 20, 30, 40] ["station", "time"] =
      .ok [("station", 20), ("time", 40)] := by
  have h := (splice_named_var_spec [10, 20, 30, 40] ["station", "time"]).1
    (by decide) (by decide) (by decide)
  simpa using h

/-! ## Theorems: variable dispatch (C2, C3, C4) -/

/-- Partition counting helper: when every record's code is one of `"2"`,
`"3"`, `"4"`, the three filtered partitions cover the input exactly. -/
theorem dim_records_length_sum (defs : List VarDef)
    (hcodes : ∀ v ∈ defs, v.dim_type ∈ ["2", "3", "4"]) :
    (dim4_records defs).length + (dim3_records defs).length
      + (dim2_records defs).length = defs.length := by
  induction defs with
  | nil => simp [dim4_records, dim3_records, dim2_records]
  | cons a t ih =>
    have ha := hcodes a (by simp)
    have ht : ∀ v ∈ t, v.dim_type ∈ ["2", "3", "4"] := fun v hv => hcodes v (by simp [hv])
    have ih' := ih ht
    simp only [List.mem_cons, List.not_mem_nil, or_false] at ha
    simp only [dim4_records, dim3_records, dim2_records, List.filter_cons] at ih' ⊢
    rcases ha with h | h | h <;> rw [h] <;> simp <;> omega

/-- C2: for records whose dimensionality codes all lie in `{"2","3","4"}`,
`create_efts_variables` succeeds; each record lands in exactly the partition
matching its code, the partitions' sizes sum to the number of records, and
the array allocated for each record carries the canonical axis tuple of its
code: `(lead_time, station, ens_member, time)` for `"4"`,
`(station, ens_member, time)` for `"3"`, `(station, time)` for `"2"`. -/
theorem create_efts_variables_dispatch (defs : List VarDef) (tv : List Int)
    (ns ll el : Nat) (ov : Option (List OptVarDef)) (tstep : String)
    (hcodes : ∀ v ∈ defs, v.dim_type ∈ ["2", "3", "4"]) :
    ∃ res, create_efts_variables defs tv ns ll el ov tstep = .ok res
      ∧ (dim4_records defs).length + (dim3_records defs).length
          + (dim2_records defs).length = defs.length
      ∧ (∀ v ∈ defs,
          (v ∈ dim4_records defs ↔ v.dim_type = "4")
          ∧ (v ∈ dim3_records defs ↔ v.dim_type = "3")
          ∧ (v ∈ dim2_records defs ↔ v.dim_type = "2"))
      ∧ (∀ v ∈ defs, ∃ xv, (v.name, xv) ∈ res.datavars
          ∧ xv.dims =
            (if v.dim_type = "4" then
              [LEAD_TIME_DIMNAME, STATION_DIMNAME, ENS_MEMBER_DIMNAME, TIME_DIMNAME]
            else if v.dim_type = "3" then
              [STATION_DIMNAME, ENS_MEMBER_DIMNAME, TIME_DIMNAME]
            else [STATION_DIMNAME, TIME_DIMNAME])) := by
  have hemp : defs.filter (fun x => decide (x.dim_type ∉ ["2", "3", "4"])) = [] := by
    rw [List.filter_eq_nil_iff]
    intro a ha
    have h := hcodes a ha
    simp at h ⊢
    tauto
  refine ⟨⟨efts_metadatavars_value tv ns ll el ov tstep, efts_datavars_value defs tv ns ll el⟩,
    ?_, dim_records_length_sum defs hcodes, ?_, ?_⟩
  · rw [create_efts_variables_eq_ok defs tv ns ll el ov tstep hemp]
  · intro v hv
    refine ⟨?_, ?_, ?_⟩ <;>
      simp [dim4_records, dim3_records, dim2_records, List.mem_filter, hv]
  · intro v hv
    have hc := hcodes v hv
    simp only [List.mem_cons, List.not_mem_nil, or_false] at hc
    rcases hc with h2 | h3 | h4
    · refine ⟨create_data_variable v
        [(_create_nc_dims tv ns ll el).station_dim, (_create_nc_dims tv ns ll el).time_dim],
        ?_, ?_⟩
      · refine List.mem_append_right _ ?_
        exact List.mem_map_of_mem _ (by
          simp [dim2_records, List.mem_filter, hv, h2])
      · simp [create_data_variable, _create_nc_dims, h2]
    · refine ⟨create_data_variable v
        [(_create_nc_dims tv ns ll el).station_dim, (_create_nc_dims tv ns ll el).ensemble_dim,
         (_create_nc_dims tv ns ll el).time_dim], ?_, ?_⟩
      · refine List.mem_append_left _ (List.mem_append_right _ ?_)
        exact List.mem_map_of_mem _ (by
          simp [dim3_records, List.mem_filter, hv, h3])
      · simp [create_data_variable, _create_nc_dims, h3]
    · refine ⟨create_data_variable v
        [(_create_nc_dims tv ns ll el).lead_time_dim, (_create_nc_dims tv ns ll el).station_dim,
         (_create_nc_dims tv ns ll el).ensemble_dim, (_create_nc_dims tv ns ll el).time_dim],
        ?_, ?_⟩
      · refine List.mem_append_left _ (List.mem_append_left _ ?_)
        exact List.mem_map_of_mem _ (by
          simp [dim4_records, List.mem_filter, hv, h4])
      · simp [create_data_variable, _create_nc_dims, h4]

/-- Witness for C2: two concrete records with codes `"4"` and `"2"`. -/
theorem create_efts_variables_dispatch_witness :
    ∃ res, create_efts_variables
        [{ name := "va", longname := "va", units := "mm", dim_type := "4",
           missval := -9999, precision := "double" },
         { name := "vb", longname := "vb", units := "mm", dim_type := "2",
           missval := -9999, precision := "double" }]
        [0, 1] 2 3 10 none "hours" = .ok res
      ∧ ∃ xv, ("va", xv) ∈ res.datavars
        ∧ xv.dims = [LEAD_TIME_DIMNAME, STATION_DIMNAME, ENS_MEMBER_DIMNAME, TIME_DIMNAME] := by
  obtain ⟨res, heq, _, _, hd⟩ := create_efts_variables_dispatch
    [{ name := "va", longname := "va", units := "mm", dim_type := "4",
       missval := -9999, precision := "double" },
     { name := "vb", longname := "vb", units := "mm", dim_type := "2",
       missval := -9999, precision := "double" }]
    [0, 1] 2 3 10 none "hours" (by decide)
  obtain ⟨xv, hmem, hdims⟩ := hd
    { name := "va", longname := "va", units := "mm", dim_type := "4",
      missval := -9999, precision := "double" } (by simp)
  exact ⟨res, heq, xv, hmem, by simpa using hdims⟩

/-- C3 evaluation: a record with dimensionality code `"5"` drives
`create_efts_variables` into the invalid-code branch, where building the
message `"Invalid dimension specifications for " + len(unknown_dims) + ...`
raises `TypeError` (str + int), so no `ValueError` reporting the count of
invalid records is ever produced. -/
theorem create_efts_variables_invalid_code_type_error :
    create_efts_variables
      [{ name := "v1", longname := "v1", units := "mm", dim_type := "5",
         missval := -9999, precision := "double" }]
      [0] 1 1 1 none "hours"
      = .error (.typeError "can only concatenate str (not \"int\") to str") := by
  rfl

/-- C4 evaluation: supplying optional variable definitions makes the
`"metadatavars"` entry `None` (the value of `dict.update`), whereas without
optional variables it holds the six fixed-template mandatory variables. -/
theorem create_efts_variables_metadatavars_clobbered :
    (∃ res, create_efts_variables [] [0] 2 3 10
        (some default_optional_variable_definitions_v2_0) "hours" = .ok res
      ∧ res.metadatavars = none)
    ∧ (∃ res2, create_efts_variables [] [0] 2 3 10 none "hours" = .ok res2
      ∧ res2.metadatavars.map (fun l => l.map Prod.fst) =
          some ["station_ids_var", "station_names_var", "ensemble_var",
                "lead_time_var", "latitude_var", "longitude_var"]) := by
  exact ⟨⟨_, rfl, rfl⟩, ⟨_, rfl, rfl⟩⟩

/-! ## Theorems: index lookup failure (C7) -/

/-- Helper: `_first_where` on an all-false condition vector yields the fixed
invalid-condition `ValueError`. -/
theorem _first_where_all_false (cond : List Bool) (h : ∀ b ∈ cond, b = false) :
    _first_where cond =
      .error (.valueError "first_where: Invalid condition, no element is true") := by
  unfold _first_where
  have hnil : (List.range cond.length).filter (fun i => cond.getD i false) = [] := by
    rw [List.filter_eq_nil_iff]
    intro i hi
    simp only [List.mem_range] at hi
    rw [List.getD_eq_getElem _ _ hi]
    simp [h _ (List.getElem_mem hi)]
  rw [hnil]

/-- C7 counterexample: on a concrete dataset, looking up two different
absent station identifiers produces the very same error value, whose message
is the fixed string `"first_where: Invalid condition, no element is true"` —
containing neither the identifier (the message has no occurrence of `zzz`)
nor the dimension name (no occurrence of `station_id`) — refuting the claim
that the not-found error names the identifier and the dimension. -/
theorem index_for_identifier_error_is_generic :
    index_for_identifier ⟨[("station", 2)], [], [], [("station_id", ["a", "b"])], [5, 6]⟩
        (some "zzz") none
      = .error (.valueError "first_where: Invalid condition, no element is true")
    ∧ index_for_identifier ⟨[("station", 2)], [], [], [("station_id", ["a", "b"])], [5, 6]⟩
        (some "qqq") none
      = index_for_identifier ⟨[("station", 2)], [], [], [("station_id", ["a", "b"])], [5, 6]⟩
        (some "zzz") none
    ∧ ¬ List.IsInfix "zzz".toList
        "first_where: Invalid condition, no element is true".toList
    ∧ ¬ List.IsInfix "station_id".toList
        "first_where: Invalid condition, no element is true".toList := by
  refine ⟨rfl, rfl, by decide, by decide⟩

/-- C7 (amended): a lookup of an identifier absent from the station
dimension variable (and likewise a time value absent from the time axis)
fails immediately with the fixed `ValueError`
`"first_where: Invalid condition, no element is true"` — which does not name
the identifier or dimension — and a null identifier fails with
`Exception("Identifier cannot be NA")`. -/
theorem index_lookup_not_found (ds : XrDataset) (values : List String)
    (identifier : String) (t : Int)
    (hvals : ds.var_values.lookup STATION_ID_VARNAME = some values)
    (hnot : identifier ∉ values) (htime : t ∉ ds.time_values) :
    index_for_identifier ds (some identifier) none =
      .error (.valueError "first_where: Invalid condition, no element is true")
    ∧ index_for_identifier ds none none = .error (.exception "Identifier cannot be NA")
    ∧ index_for_time ds t =
      .error (.valueError "first_where: Invalid condition, no element is true") := by
  have hg : _get_values ds STATION_ID_VARNAME = .ok values := by
    unfold _get_values
    rw [if_neg (by decide), hvals]
  have hdim : (none : Option String).getD get_stations_varname = STATION_ID_VARNAME := rfl
  refine ⟨?_, ?_, ?_⟩
  · unfold index_for_identifier
    rw [hdim, hg]
    refine _first_where_all_false _ ?_
    intro b hb
    rw [List.mem_map] at hb
    obtain ⟨s, hs, rfl⟩ := hb
    rw [beq_eq_false_iff_ne]
    intro heq
    exact hnot (heq ▸ hs)
  · unfold index_for_identifier
    rw [hdim, hg]
  · unfold index_for_time
    refine _first_where_all_false _ ?_
    intro b hb
    rw [List.mem_map] at hb
    obtain ⟨s, hs, rfl⟩ := hb
    rw [beq_eq_false_iff_ne]
    intro heq
    exact htime (heq ▸ hs)

/-- Witness for C7's amended theorem on a concrete dataset. -/
theorem index_lookup_not_found_witness :
    index_for_identifier ⟨[("station", 2)], [], [], [("station_id", ["a", "b"])], [5, 6]⟩
        (some "c") none
      = .error (.valueError "first_where: Invalid condition, no element is true")
    ∧ index_for_identifier ⟨[("station", 2)], [], [], [("station_id", ["a", "b"])], [5, 6]⟩
        none none = .error (.exception "Identifier cannot be NA")
    ∧ index_for_time ⟨[("station", 2)], [], [], [("station_id", ["a", "b"])], [5, 6]⟩ 7
      = .error (.valueError "first_where: Invalid condition, no element is true") :=
  index_lookup_not_found
    ⟨[("station", 2)], [], [], [("station_id", ["a", "b"])], [5, 6]⟩
    ["a", "b"] "c" 7 rfl (by decide) (by decide)

/-! ## Theorems: creation refuses an existing file (C8) -/

/-- C8: `create_efts` never modifies the file-system state on any path, and
when the target path already exists (and the earlier argument checks pass),
it fails with `FileExistsError` naming the path, so the existing file's
contents are unchanged by the failed call. -/
theorem create_efts_refuses_existing_file (fs : List (String × String)) (fname : String)
    (tv : List Int) (dvd : List VarDef) (sids : Option (List Int))
    (nca : Option (List (String × String))) (ov : Option (List OptVarDef))
    (ll el : Nat) (tstep : String) :
    (create_efts fs fname tv dvd sids nca ov ll el tstep).2 = fs
    ∧ (sids ≠ none → nca ≠ none → (fs.lookup fname).isSome →
        (create_efts fs fname tv dvd sids nca ov ll el tstep).1 =
          .error (.fileExistsError ("File already exists: " ++ fname))) := by
  constructor
  · cases sids with
    | none => rfl
    | some ids =>
      cases nca with
      | none => rfl
      | some a =>
        unfold create_efts
        simp only
        split
        · rfl
        · split <;> rfl
  · intro hs hn hx
    cases sids with
    | none => exact absurd rfl hs
    | some ids =>
      cases nca with
      | none => exact absurd rfl hn
      | some a =>
        unfold create_efts
        simp only
        rw [if_pos hx]

/-- Witness for C8 on a one-file file system. -/
theorem create_efts_refuses_existing_file_witness :
    (create_efts [("out.nc", "data")] "out.nc" [0] [] (some [1]) (some [("title", "t")])
        none 2 3 "hours").1
      = .error (.fileExistsError ("File already exists: " ++ "out.nc"))
    ∧ (create_efts [("out.nc", "data")] "out.nc" [0] [] (some [1]) (some [("title", "t")])
        none 2 3 "hours").2 = [("out.nc", "data")] := by
  have h := create_efts_refuses_existing_file [("out.nc", "data")] "out.nc" [0] []
    (some [1]) (some [("title", "t")]) none 2 3 "hours"
  exact ⟨h.2 (by simp) (by simp) (by decide), h.1⟩

/-! ## Theorems: end-to-end construction (C9) -/

/-- C9: building a dataset through `xr_efts` with 2 stations, 3 lead times,
10 ensemble members and 31 timestamps yields mandatory dimension sizes
`time = 31`, `station = 2`, `lead_time = 3`, `ens_member = 10`, and the
dataset passes the xarray dimension predicate, the global-attribute
predicate and the variable-name predicate (as asserted by
`tests/test_create.py`). -/
theorem xr_efts_end_to_end :
    (xr_efts ((List.range 31).map Int.ofNat) ["a", "b"] (some [1, 2, 3]) "hours" 10
        none none none none none).dims.lookup TIME_DIMNAME = some 31
    ∧ (xr_efts ((List.range 31).map Int.ofNat) ["a", "b"] (some [1, 2, 3]) "hours" 10
        none none none none none).dims.lookup STATION_DIMNAME = some 2
    ∧ (xr_efts ((List.range 31).map Int.ofNat) ["a", "b"] (some [1, 2, 3]) "hours" 10
        none none none none none).dims.lookup LEAD_TIME_DIMNAME = some 3
    ∧ (xr_efts ((List.range 31).map Int.ofNat) ["a", "b"] (some [1, 2, 3]) "hours" 10
        none none none none none).dims.lookup ENS_MEMBER_DIMNAME = some 10
    ∧ has_required_xarray_dimensions (xr_efts ((List.range 31).map Int.ofNat) ["a", "b"]
        (some [1, 2, 3]) "hours" 10 none none none none none) = true
    ∧ has_required_global_attributes (xr_efts ((List.range 31).map Int.ofNat) ["a", "b"]
        (some [1, 2, 3]) "hours" 10 none none none none none) = true
    ∧ has_required_variables (xr_efts ((List.range 31).map Int.ofNat) ["a", "b"]
        (some [1, 2, 3]) "hours" 10 none none none none none) = true := by
  refine ⟨rfl, rfl, rfl, rfl, by decide, by decide, by decide⟩

/-! ## Theorems: station count accessor (C10) -/

/-- C10: whenever the dataset has a `station` dimension (of any size),
`get_station_count` returns `None` — the Python body evaluates the dimension
size but lacks a `return`, so no integer is ever produced. -/
theorem get_station_count_returns_none (ds : XrDataset)
    (h : (ds.dims.lookup STATION_DIMNAME).isSome) :
    get_station_count ds = .ok none := by
  unfold get_station_count
  obtain ⟨n, hn⟩ := Option.isSome_iff_exists.mp h
  rw [hn]

/-- Witness for C10: a dataset with 7 stations still yields `None`. -/
theorem get_station_count_returns_none_witness :
    get_station_count ⟨[("station", 7)], [], [], [], []⟩ = .ok none :=
  get_station_count_returns_none ⟨[("station", 7)], [], [], [], []⟩ (by decide)

/-! ## Theorems: dimension reducer (C1) — index bookkeeping lemmas -/

/-- The match position of a member is within bounds. -/
theorem matchIndex_lt_length {α : Type} [DecidableEq α] {nm : α} {l : List α}
    (h : nm ∈ l) : matchIndex nm l < l.length := by
  induction l with
  | nil => cases h
  | cons a rest ih =>
    by_cases ha : a = nm
    · simp [matchIndex, ha]
    · rcases List.mem_cons.mp h with h1 | h1
      · exact absurd h1.symm ha
      · simp only [matchIndex, if_neg ha, List.length_cons]
        exact Nat.succ_lt_succ (ih h1)

/-- Reading a list at a member's match position recovers the member. -/
theorem getD_matchIndex {α : Type} [DecidableEq α] {nm : α} {l : List α}
    (h : nm ∈ l) (d : α) : l.getD (matchIndex nm l) d = nm := by
  induction l with
  | nil => cases h
  | cons a rest ih =>
    by_cases ha : a = nm
    · simp [matchIndex, ha]
    · rcases List.mem_cons.mp h with h1 | h1
      · exact absurd h1.symm ha
      · simp only [matchIndex, if_neg ha]
        simpa using ih h1

/-- On a duplicate-free list, matching the element read at position `m`
returns `m`. -/
theorem matchIndex_getD {α : Type} [DecidableEq α] {l : List α} (hnd : l.Nodup)
    {m : Nat} (hm : m < l.length) (d : α) : matchIndex (l.getD m d) l = m := by
  induction l generalizing m with
  | nil => simp at hm
  | cons a rest ih =>
    cases m with
    | zero => simp [matchIndex]
    | succ k =>
      have hk : k < rest.length := by simpa using hm
      have hmem : rest.getD k d ∈ rest := by
        rw [List.getD_eq_getElem _ _ hk]
        exact List.getElem_mem hk
      have hne : a ≠ rest.getD k d := by
        intro heq
        exact (List.nodup_cons.mp hnd).1 (heq ▸ hmem)
      simp only [List.getD_cons_succ, matchIndex, if_neg hne]
      rw [ih (List.nodup_cons.mp hnd).2 hk]

/-- Matching inside the left part of an append. -/
theorem matchIndex_append_left {α : Type} [DecidableEq α] {a : α} {l1 : List α}
    (l2 : List α) (h : a ∈ l1) : matchIndex a (l1 ++ l2) = matchIndex a l1 := by
  induction l1 with
  | nil => cases h
  | cons b rest ih =>
    by_cases hb : b = a
    · simp [matchIndex, hb]
    · rcases List.mem_cons.mp h with h1 | h1
      · exact absurd h1.symm hb
      · simp only [List.cons_append, matchIndex, if_neg hb, List.append_eq]
        rw [ih h1]

/-- Matching past the left part of an append. -/
theorem matchIndex_append_right {α : Type} [DecidableEq α] {a : α} {l1 : List α}
    (l2 : List α) (h : a ∉ l1) : matchIndex a (l1 ++ l2) = l1.length + matchIndex a l2 := by
  induction l1 with
  | nil => simp
  | cons b rest ih =>
    have hb : b ≠ a := fun heq => h (heq ▸ List.mem_cons_self b rest)
    have hrest : a ∉ rest := fun hr => h (List.mem_cons_of_mem b hr)
    simp only [List.cons_append, matchIndex, if_neg hb, List.append_eq, List.length_cons]
    rw [ih hrest]
    omega

/-- A valid column-major index linearizes below the shape's product. -/
theorem linearizeCM_lt_prod {j sh : List Nat}
    (h : List.Forall₂ (fun a s => a < s) j sh) : linearizeCM sh j < sh.prod := by
  induction h with
  | nil => simp [linearizeCM]
  | cons ha htail ih =>
    rename_i a s j' ss
    simp only [linearizeCM, List.prod_cons]
    calc a + s * linearizeCM ss j' < s * (linearizeCM ss j' + 1) := by
          rw [Nat.mul_add, Nat.mul_one]
          omega
    _ ≤ s * ss.prod := Nat.mul_le_mul_left s ih

/-- Delinearizing `linearizeCM sh j + sh.prod * q` against `sh ++ t` peels
off exactly `j` and continues with `q`. -/
theorem delinearizeCM_append {j sh : List Nat}
    (h : List.Forall₂ (fun a s => a < s) j sh) (t : List Nat) (q : Nat) :
    delinearizeCM (sh ++ t) (linearizeCM sh j + sh.prod * q) = j ++ delinearizeCM t q := by
  induction h generalizing q with
  | nil => simp [linearizeCM]
  | cons ha htail ih =>
    rename_i a s j' ss
    have hs : 0 < s := Nat.lt_of_le_of_lt (Nat.zero_le a) ha
    simp only [List.cons_append, linearizeCM, List.prod_cons, delinearizeCM, List.append_eq]
    have harr : a + s * linearizeCM ss j' + s * ss.prod * q
        = a + s * (linearizeCM ss j' + ss.prod * q) := by ring
    rw [harr, Nat.add_mul_mod_self_left, Nat.mod_eq_of_lt ha,
      Nat.add_mul_div_left _ _ hs, Nat.div_eq_of_lt ha, Nat.zero_add, ih q]

/-- Delinearizing zero yields the all-zero index. -/
theorem delinearizeCM_zero (t : List Nat) :
    delinearizeCM t 0 = List.replicate t.length 0 := by
  induction t with
  | nil => rfl
  | cons s ss ih => simp [delinearizeCM, Nat.zero_mod, Nat.zero_div, ih, List.replicate]

/-- Reading a tabulated list below its length evaluates the generator. -/
theorem getD_range_map {β : Type} (N : Nat) (f : Nat → β) {l : Nat} (hl : l < N) (d : β) :
    ((List.range N).map f).getD l d = f l := by
  rw [List.getD_eq_getElem _ _ (by simpa using hl)]
  simp

/-- Recycling a list to its own length is the identity. -/
theorem recycle_eq_self {β : Type} (data : List β) (N : Nat) (h : data.length = N) (d : β) :
    (List.range N).map (fun l => data.getD (l % data.length) d) = data := by
  subst h
  apply List.ext_getElem
  · simp
  · intro i h1 h2
    simp only [List.getElem_map, List.getElem_range]
    rw [Nat.mod_eq_of_lt h2, List.getD_eq_getElem _ _ h2]

/-- Pointwise `getD` consequence of a `Forall₂` bound. -/
theorem forall₂_lt_getD {i sh : List Nat}
    (h : List.Forall₂ (fun a s => a < s) i sh) {m : Nat} (hm : m < sh.length) :
    i.getD m 0 < sh.getD m 0 := by
  have hlen := h.length_eq
  have hget := (List.forall₂_iff_get.mp h).2
  rw [List.getD_eq_getElem _ _ (by omega), List.getD_eq_getElem _ _ hm]
  simpa using hget m (by omega) hm

/-- The two complementary filters of a list split its length. -/
theorem length_filter_split {β : Type} (l : List β) (p : β → Bool) :
    (l.filter p).length + (l.filter (fun a => ! p a)).length = l.length := by
  induction l with
  | nil => simp
  | cons a t ih =>
    cases hp : p a <;> simp [List.filter_cons, hp] <;> omega

/-- Filtering a duplicate-free list by membership in a duplicate-free
sublist keeps exactly as many elements as the sublist has. -/
theorem length_filter_mem (dn sub : List String) (hdn : dn.Nodup) (hsub : sub.Nodup)
    (hss : ∀ s ∈ sub, s ∈ dn) :
    (dn.filter (fun a => decide (a ∈ sub))).length = sub.length := by
  have h1 : (dn.filter (fun a => decide (a ∈ sub))).Nodup := hdn.filter _
  have h2 : (dn.filter (fun a => decide (a ∈ sub))).toFinset = sub.toFinset := by
    ext a
    simp only [List.mem_toFinset, List.mem_filter, decide_eq_true_eq]
    exact ⟨fun hx => hx.2, fun hx => ⟨hss a hx, hx⟩⟩
  calc (dn.filter (fun a => decide (a ∈ sub))).length
      = (dn.filter (fun a => decide (a ∈ sub))).toFinset.card :=
        (List.toFinset_card_of_nodup h1).symm
    _ = sub.toFinset.card := by rw [h2]
    _ = sub.length := List.toFinset_card_of_nodup hsub

/-- Mapping two pointwise-ordered generators over one list gives a
`Forall₂` bound. -/
theorem forall₂_map_lt {β : Type} (l : List β) (f g : β → Nat)
    (h : ∀ m ∈ l, f m < g m) :
    List.Forall₂ (fun a s => a < s) (l.map f) (l.map g) := by
  induction l with
  | nil => simp
  | cons a t ih =>
    simp only [List.map_cons, List.forall₂_cons]
    exact ⟨h a (List.mem_cons_self a t), ih (fun m hm => h m (List.mem_cons_of_mem a hm))⟩

/-- Reading a zero-filled vector anywhere yields zero. -/
theorem getD_replicate_zero (k t : Nat) : (List.replicate k (0 : Nat)).getD t 0 = 0 := by
  by_cases h : t < k
  · rw [List.getD_eq_getElem _ _ (by simpa using h)]
    simp
  · rw [List.getD_eq_default _ _ (by simpa using Nat.le_of_not_lt h)]

/-- C1: for a named array whose axis-name metadata matches its rank (with
unique names, the `dim_names` invariant), and a non-empty duplicate-free
target list of axis names all present in the array such that every axis
outside the target has size one, `reduce_dimensions` succeeds; the output's
shape is exactly the sizes of the target axes in target order — explicitly
requested size-1 axes are retained as real axes — its axis names are the
target names, and re-expanding to the original shape recovers the original
values: every entry of the input reappears at the position obtained by
projecting its multi-index onto the target axes. -/
theorem reduce_dimensions_correct {α : Type} (x : NamedArray α) (subset : List String)
    (dflt : α)
    (hwf : x.data.length = x.shape.prod)
    (hlen : x.dim_names.length = x.shape.length)
    (hdn : x.dim_names.Nodup)
    (hsub : ∀ nm ∈ subset, nm ∈ x.dim_names)
    (hsnd : subset.Nodup)
    (hne : subset ≠ [])
    (hdrop : ∀ nm ∈ x.dim_names, nm ∉ subset →
      x.shape.getD (matchIndex nm x.dim_names) 0 = 1) :
    ∃ y, reduce_dimensions x (some subset) dflt = .ok y
      ∧ y.shape = subset.map (fun nm => x.shape.getD (matchIndex nm x.dim_names) 0)
      ∧ y.dim_names = subset
      ∧ ∀ i : List Nat, List.Forall₂ (fun a s => a < s) i x.shape →
          y.data.getD (linearizeCM y.shape
              (subset.map (fun nm => i.getD (matchIndex nm x.dim_names) 0))) dflt
            = x.data.getD (linearizeCM x.shape i) dflt := by
  obtain ⟨sh, dn, data⟩ := x
  have hwf : data.length = sh.prod := hwf
  have hlen : dn.length = sh.length := hlen
  have hdn : dn.Nodup := hdn
  have hsub : ∀ nm ∈ subset, nm ∈ dn := hsub
  have hdrop : ∀ nm ∈ dn, nm ∉ subset → sh.getD (matchIndex nm dn) 0 = 1 := hdrop
  -- membership facts about the dropped-name list
  have hO : ∀ nm ∈ setdiffStr dn subset, nm ∈ dn ∧ nm ∉ subset := by
    intro nm hm
    rw [setdiffStr, List.mem_dedup, List.mem_filter] at hm
    exact ⟨hm.1, by simpa using hm.2⟩
  have hOin : ∀ nm, nm ∈ dn → nm ∉ subset → nm ∈ setdiffStr dn subset := by
    intro nm h1 h2
    rw [setdiffStr, List.mem_dedup, List.mem_filter]
    exact ⟨h1, by simpa using h2⟩
  -- the guards pass
  have g1 : ¬ (dn.length ≠ sh.length) := by omega
  have g2 : setdiffStr subset dn = [] := by
    rw [setdiffStr]
    have hf : subset.filter (fun s => decide (s ∉ dn)) = [] := by
      rw [List.filter_eq_nil_iff]
      intro a ha
      simpa using hsub a ha
    rw [hf]
    rfl
  have g3 : (setdiffStr dn subset).any
      (fun nm => decide (1 < sh.getD (matchIndex nm dn) 0)) = false := by
    rw [List.any_eq_false]
    intro nm hm
    obtain ⟨h1, h2⟩ := hO nm hm
    simp only [decide_eq_true_eq]
    rw [hdrop nm h1 h2]
    omega
  -- the permutation pieces
  set w := subset.map (fun nm => matchIndex nm dn) with hw
  set other := (setdiffStr dn subset).map (fun nm => matchIndex nm dn) with hother
  have hwlen : w.length = subset.length := by rw [hw, List.length_map]
  have hwmem : ∀ m ∈ w, m < dn.length := by
    intro m hm
    rw [hw, List.mem_map] at hm
    obtain ⟨nm, hnm, rfl⟩ := hm
    exact matchIndex_lt_length (hsub nm hnm)
  have htsizes : w.map (fun m => sh.getD m 0)
      = subset.map (fun nm => sh.getD (matchIndex nm dn) 0) := by
    rw [hw, List.map_map]
    rfl
  have hnames_w : w.map (fun k => dn.getD k "") = subset := by
    rw [hw, List.map_map]
    have hid : ∀ nm ∈ subset, dn.getD (matchIndex nm dn) "" = nm :=
      fun nm h => getD_matchIndex (hsub nm h) ""
    calc subset.map ((fun k => dn.getD k "") ∘ fun nm => matchIndex nm dn)
        = subset.map id := List.map_congr_left hid
      _ = subset := List.map_id subset
  have hosz : ∀ s ∈ other.map (fun m => sh.getD m 0), s = 1 := by
    intro s hs
    rw [List.mem_map] at hs
    obtain ⟨m, hm, rfl⟩ := hs
    rw [hother, List.mem_map] at hm
    obtain ⟨nm, hnm, rfl⟩ := hm
    obtain ⟨h1, h2⟩ := hO nm hnm
    exact hdrop nm h1 h2
  have hoszprod : (other.map (fun m => sh.getD m 0)).prod = 1 := List.prod_eq_one hosz
  -- the reordered array
  have hxr_shape : (aperm ⟨sh, dn, data⟩ (w ++ other) dflt).shape
      = w.map (fun k => sh.getD k 0) ++ other.map (fun k => sh.getD k 0) := by
    simp [aperm, List.map_append]
  have hxr_len : (aperm ⟨sh, dn, data⟩ (w ++ other) dflt).data.length
      = ((w ++ other).map (fun k => sh.getD k 0)).prod := by
    simp [aperm]
  have hxr_len' : (aperm ⟨sh, dn, data⟩ (w ++ other) dflt).data.length
      = (w.map (fun k => sh.getD k 0)).prod := by
    rw [hxr_len, List.map_append, List.prod_append, hoszprod, mul_one]
  have hshape_take : (w.map (fun k => sh.getD k 0) ++ other.map (fun k => sh.getD k 0)).take
      w.length = w.map (fun k => sh.getD k 0) := by
    have h := List.take_left (w.map (fun k => sh.getD k 0)) (other.map (fun k => sh.getD k 0))
    rwa [List.length_map] at h
  have hnames_take : ((w ++ other).map (fun k => dn.getD k "")).take w.length = subset := by
    rw [List.map_append]
    have h := List.take_left (w.map (fun k => dn.getD k "")) (other.map (fun k => dn.getD k ""))
    rw [List.length_map] at h
    rw [h, hnames_w]
  refine ⟨⟨subset.map (fun nm => sh.getD (matchIndex nm dn) 0), subset,
    (aperm ⟨sh, dn, data⟩ (w ++ other) dflt).data⟩, ?_, rfl, rfl, ?_⟩
  · -- the computation reaches exactly this value
    simp only [reduce_dimensions]
    rw [if_neg g1, g2]
    rw [if_neg (by simp : ¬ (([] : List String) ≠ []))]
    rw [g3]
    rw [if_neg (by simp : ¬ (false = true))]
    rw [← hw, ← hother, hnames_take]
    rw [hxr_shape, hshape_take]
    simp only [set_dim_names, array_reshape, drop_degenerate]
    rw [if_neg (by rw [List.length_map, hwlen]; omega :
      ¬ ((w.map (fun k => sh.getD k 0)).length ≠ subset.length))]
    rw [if_neg (by rw [hsnd.dedup, List.length_map, hwlen]; omega :
      ¬ (subset.dedup.length ≠ (w.map (fun k => sh.getD k 0)).length))]
    rw [recycle_eq_self _ _ hxr_len' dflt]
    rw [htsizes]
  · -- value recovery
    intro i hF
    have hilen : i.length = sh.length := hF.length_eq
    have hjw : subset.map (fun nm => i.getD (matchIndex nm dn) 0)
        = w.map (fun m => i.getD m 0) := by
      rw [hw, List.map_map]
      rfl
    have hjF : List.Forall₂ (fun a s => a < s)
        (w.map (fun m => i.getD m 0)) (w.map (fun m => sh.getD m 0)) := by
      refine forall₂_map_lt w _ _ ?_
      intro m hm
      exact forall₂_lt_getD hF (by rw [← hlen]; exact hwmem m hm)
    have hL : linearizeCM (w.map (fun m => sh.getD m 0)) (w.map (fun m => i.getD m 0))
        < (w.map (fun m => sh.getD m 0)).prod := linearizeCM_lt_prod hjF
    -- evaluate the aperm data at the linearized target index
    have hread : (aperm ⟨sh, dn, data⟩ (w ++ other) dflt).data.getD
        (linearizeCM (w.map (fun m => sh.getD m 0)) (w.map (fun m => i.getD m 0))) dflt
        = data.getD (linearizeCM sh (backPermute (w ++ other)
            (delinearizeCM ((w ++ other).map (fun k => sh.getD k 0))
              (linearizeCM (w.map (fun m => sh.getD m 0))
                (w.map (fun m => i.getD m 0)))))) dflt := by
      simp only [aperm]
      refine getD_range_map _ _ ?_ dflt
      rw [List.map_append, List.prod_append, hoszprod, mul_one]
      exact hL
    have hdelin : delinearizeCM ((w ++ other).map (fun k => sh.getD k 0))
        (linearizeCM (w.map (fun m => sh.getD m 0)) (w.map (fun m => i.getD m 0)))
        = (w.map (fun m => i.getD m 0)) ++ List.replicate other.length 0 := by
      rw [List.map_append]
      have h := delinearizeCM_append hjF (other.map (fun k => sh.getD k 0)) 0
      rw [Nat.mul_zero, Nat.add_zero] at h
      rw [h, delinearizeCM_zero, List.length_map]
    have hback : backPermute (w ++ other)
        ((w.map (fun m => i.getD m 0)) ++ List.replicate other.length 0) = i := by
      have hsumlen : w.length + other.length = dn.length := by
        have hfun : (fun s => decide (s ∉ subset)) = (fun a => ! decide (a ∈ subset)) := by
          funext a
          exact decide_not
        have hosetlen : other.length = (dn.filter (fun a => ! decide (a ∈ subset))).length := by
          rw [hother, List.length_map, setdiffStr, (hdn.filter _).dedup]
          rw [hfun]
        have hsplit := length_filter_split dn (fun a => decide (a ∈ subset))
        have hmemlen := length_filter_mem dn subset hdn hsnd hsub
        omega
      refine List.ext_getElem ?_ ?_
      · simp only [backPermute, List.length_map, List.length_range, List.length_append]
        omega
      · intro m hm1 hm2
        have hmn : m < dn.length := by
          simp only [backPermute, List.length_map, List.length_range, List.length_append] at hm1
          omega
        have hmi : m < i.length := by omega
        simp only [backPermute, List.getElem_map, List.getElem_range]
        by_cases hmem : dn.getD m "" ∈ subset
        · -- a target axis: read the projected coordinate back
          have hmidx : matchIndex (dn.getD m "") dn = m := matchIndex_getD hdn hmn ""
          have hmw : m ∈ w := by
            rw [hw, List.mem_map]
            exact ⟨dn.getD m "", hmem, hmidx⟩
          rw [matchIndex_append_left other hmw]
          have hk : matchIndex m w < w.length := matchIndex_lt_length hmw
          rw [List.getD_append _ _ _ _ (by rw [List.length_map]; exact hk)]
          rw [List.getD_eq_getElem _ _ (by rw [List.length_map]; exact hk)]
          simp only [List.getElem_map]
          have hwk : w.getD (matchIndex m w) 0 = m := getD_matchIndex hmw 0
          rw [List.getD_eq_getElem _ _ hk] at hwk
          rw [hwk, List.getD_eq_getElem _ _ hmi]
        · -- a dropped (size-one) axis: both sides are zero
          have hnmdn : dn.getD m "" ∈ dn := by
            rw [List.getD_eq_getElem _ _ hmn]
            exact List.getElem_mem hmn
          have hmidx : matchIndex (dn.getD m "") dn = m := matchIndex_getD hdn hmn ""
          have hmo : m ∈ other := by
            rw [hother, List.mem_map]
            exact ⟨dn.getD m "", hOin _ hnmdn hmem, hmidx⟩
          have hmw : m ∉ w := by
            intro hmw
            rw [hw, List.mem_map] at hmw
            obtain ⟨nm, hnm, hnmeq⟩ := hmw
            have : dn.getD (matchIndex nm dn) "" = nm := getD_matchIndex (hsub nm hnm) ""
            rw [hnmeq] at this
            exact hmem (this ▸ hnm)
          rw [matchIndex_append_right other hmw]
          have ht : matchIndex m other < other.length := matchIndex_lt_length hmo
          rw [List.getD_append_right _ _ _ _ (by rw [List.length_map]; omega)]
          rw [getD_replicate_zero]
          have hsm : sh.getD m 0 = 1 := by
            have := hdrop (dn.getD m "") hnmdn hmem
            rwa [hmidx] at this
          have hilt : i.getD m 0 < sh.getD m 0 := @forall₂_lt_getD i sh hF m (by omega)
          rw [hsm] at hilt
          have higet : i.getD m 0 = i[m] := List.getD_eq_getElem i 0 hmi
          rw [← higet]
          omega
    rw [hjw, ← htsizes, hread, hdelin, hback]

/-- Witness for C1: reducing a concrete `2 × 1 × 2` array (axes
`lead_time, station, time`) to the targets `[time, lead_time]` succeeds with
shape `[2, 2]` and the requested axis names. -/
theorem reduce_dimensions_correct_witness :
    ∃ y, reduce_dimensions
        ⟨[2, 1, 2], ["lead_time", "station", "time"], [(10 : Int), 20, 30, 40]⟩
        (some ["time", "lead_time"]) 0 = .ok y
      ∧ y.shape = [2, 2] ∧ y.dim_names = ["time", "lead_time"] := by
  obtain ⟨y, h1, h2, h3, _⟩ := reduce_dimensions_correct
    ⟨[2, 1, 2], ["lead_time", "station", "time"], [(10 : Int), 20, 30, 40]⟩
    ["time", "lead_time"] 0 (by decide) (by decide) (by decide) (by decide)
    (by decide) (by decide) (by decide)
  exact ⟨y, h1, h2.trans (by decide), h3⟩
